import Mathlib

/-!
Shallow embedding of `src/packages/frames.js/src/ethereum/index.ts`
(the Ethereum Frame Actions trust-chain core) and proofs about it.

Modelling conventions:
* JavaScript values appearing inside EIP-712 typed-data messages are modelled
  by `MsgVal`, which distinguishes a JS `number`, a JS `BigInt` and a string
  (the code mixes `number` and `BigInt` for `uint64` fields, and they are
  distinct JS values even when numerically equal).
* The external cryptographic collaborator (viem) is modelled abstractly:
  a public client is a function from `VerifyTypedDataParameters` to
  `Except String Bool` (an `Except.error` models a thrown network or transport
  error).  The client built by `createPublicClient({transport: http(), chain:
  mainnet})` is a parameter `defaultClient` of the definitions that construct
  it, since its behaviour lives outside this repository.
* EIP-712 hashing is schema-directed: viem encodes, for each field of the
  primary type's schema in order, the message value looked up by name;
  message entries whose name is not in the schema are ignored, and a JS
  `number` and a `BigInt` of equal value encode identically for `uintN`
  fields.  `encodeTypedData` reproduces exactly this and is used to build the
  idealised collaborator for the end-to-end round-trip claim.
-/

/-- A JavaScript value as it appears in a typed-data message: a `number`,
a `BigInt`, or a string (addresses, hashes and plain text are all JS
strings). -/
inductive MsgVal where
  | num (n : Int)
  | big (n : Int)
  | str (s : String)
deriving DecidableEq, Repr

/-- Hex string (0x-prefixed), as used for addresses, hashes and signatures. -/
abbrev HexString := String

/-- One entry of an EIP-712 type definition, mirroring viem's
`TypedDataParameter`. -/
structure TypedDataParameter where
  name : String
  type : String
deriving DecidableEq, Repr

/-- The `FrameActionBody` schema of `EIP712TypesV1` (source lines 52-60). -/
def frameActionBodySchema : List TypedDataParameter :=
  [⟨"frame_url", "string"⟩,
   ⟨"button_index", "uint32"⟩,
   ⟨"unix_timestamp", "uint64"⟩,
   ⟨"input_text", "string"⟩,
   ⟨"state", "string"⟩,
   ⟨"transaction_id", "bytes32"⟩,
   ⟨"address", "address"⟩]

/-- The `PublicKeyBundle` schema of `EIP712TypesV1` (source lines 61-64). -/
def publicKeyBundleSchema : List TypedDataParameter :=
  [⟨"timestamp", "uint64"⟩,
   ⟨"proxy_key_bytes", "address"⟩]

/-- The record `EIP712TypesV1` (source lines 48-65). -/
structure EIP712Types where
  FrameActionBody : List TypedDataParameter
  PublicKeyBundle : List TypedDataParameter
deriving DecidableEq, Repr

def EIP712TypesV1 : EIP712Types :=
  { FrameActionBody := frameActionBodySchema
    PublicKeyBundle := publicKeyBundleSchema }

/-- The shared EIP-712 domain (source lines 67-70). -/
def domain : List (String × MsgVal) :=
  [("name", .str "Ethereum Frame Action"), ("version", .str "1")]

/-- viem's `zeroHash`: the all-zero 32-byte value. -/
def zeroHash : HexString :=
  "0x0000000000000000000000000000000000000000000000000000000000000000"

/-- viem's `zeroAddress`: the all-zero 20-byte address. -/
def zeroAddress : HexString :=
  "0x0000000000000000000000000000000000000000"

/-- An EIP-712-encoded field atom: what viem's hashing extracts from a
message value, after numeric normalisation (a `number` and a `BigInt` of the
same value encode the same `uintN` atom). -/
inductive EncVal where
  | eStr (s : String)
  | eNat (n : Int)
  | eHex (h : String)
deriving DecidableEq, Repr

/-- Schema-directed encoding of a single message value at a declared EIP-712
type; `none` models viem throwing (type mismatch or out-of-range integer). -/
def encodeField (ty : String) (v : MsgVal) : Option EncVal :=
  match ty, v with
  | "string", .str s => some (.eStr s)
  | "address", .str h => some (.eHex h)
  | "bytes32", .str h => some (.eHex h)
  | "uint32", .num n => if 0 ≤ n ∧ n < 2 ^ 32 then some (.eNat n) else none
  | "uint32", .big n => if 0 ≤ n ∧ n < 2 ^ 32 then some (.eNat n) else none
  | "uint64", .num n => if 0 ≤ n ∧ n < 2 ^ 64 then some (.eNat n) else none
  | "uint64", .big n => if 0 ≤ n ∧ n < 2 ^ 64 then some (.eNat n) else none
  | _, _ => none

/-- Look a field up in a JS message object (first binding wins, as in JS). -/
def lookupMsg (message : List (String × MsgVal)) (name : String) :
    Option MsgVal :=
  (message.find? (fun p => p.1 == name)).map (fun p => p.2)

/-- Encode a message against a schema: for each schema field in order, look
its name up in the message and encode it at the declared type.  Message
entries not named by the schema are ignored, exactly as in viem's
`hashStruct`. -/
def encodeFields (schema : List TypedDataParameter)
    (message : List (String × MsgVal)) : Option (List EncVal) :=
  schema.mapM (fun p => (lookupMsg message p.name).bind (encodeField p.type))

/-- Resolve the schema named by `primaryType` in an `EIP712Types` record. -/
def schemaFor (types : EIP712Types) (primaryType : String) :
    Option (List TypedDataParameter) :=
  match primaryType with
  | "FrameActionBody" => some types.FrameActionBody
  | "PublicKeyBundle" => some types.PublicKeyBundle
  | _ => none

/-- The arguments the code hands to `signTypedData` (domain, types, primary
type and message). -/
structure SignTypedDataParams where
  primaryType : String
  domain : List (String × MsgVal)
  types : EIP712Types
  message : List (String × MsgVal)
deriving DecidableEq, Repr

/-- The EIP-712 digest of a typed-data request: domain, primary type and the
schema-directed field encoding (`none` when viem would throw).  Two requests
with equal `EncodedTypedData` are indistinguishable to the collaborator. -/
structure EncodedTypedData where
  domain : List (String × MsgVal)
  primaryType : String
  fields : Option (List EncVal)
deriving DecidableEq, Repr

def encodeTypedData (p : SignTypedDataParams) : EncodedTypedData :=
  { domain := p.domain
    primaryType := p.primaryType
    fields := (schemaFor p.types p.primaryType).bind
      (fun s => encodeFields s p.message) }

/-- A signature, as produced by the idealised collaborator: it records which
address signed which EIP-712 digest.  The core never inspects signatures; it
only passes them back to the collaborator. -/
abbrev Sig := HexString × EncodedTypedData

/-- viem's `VerifyTypedDataParameters`: the signing arguments plus the
claimed signer address and the signature to check. -/
structure VerifyTypedDataParameters extends SignTypedDataParams where
  address : HexString
  signature : Sig
deriving DecidableEq, Repr

/-- A public client, reduced to the single capability the code uses:
`verifyTypedData`.  `Except.error` models a thrown collaborator error. -/
def PublicClient : Type := VerifyTypedDataParameters → Except String Bool

/-- The idealised signing primitive: the signature produced by account `a`
over typed data `p` is the pair of `a` and the EIP-712 digest of `p`. -/
def idealSign (a : HexString) (p : SignTypedDataParams) : Sig :=
  (a, encodeTypedData p)

/-- The idealised verifying collaborator: it accepts exactly the signatures
`idealSign` produced, i.e. a signature verifies against address `a` and
typed data `p` iff it is `idealSign a p`. -/
def idealClient : PublicClient :=
  fun v => .ok (v.signature == idealSign v.address v.toSignTypedDataParams)

/-- Type `PublicKeyBundle` (source lines 14-17). -/
structure PublicKeyBundle where
  timestamp : Int
  proxy_key_bytes : HexString
deriving DecidableEq, Repr

/-- Type `SignedPublicKeyBundle` (source lines 19-23). -/
structure SignedPublicKeyBundle where
  public_key_bundle : PublicKeyBundle
  wallet_address : HexString
  signature : Sig
deriving DecidableEq, Repr

/-- Type `FrameActionBody` (source lines 25-33); optional fields are `Option`. -/
structure FrameActionBody where
  url : String
  unixTimestamp : Int
  buttonIndex : Int
  inputText : Option String := none
  state : Option String := none
  transactionId : Option HexString := none
  address : Option HexString := none
deriving DecidableEq, Repr

/-- The `untrustedData` member of `EthereumFrameRequest` (source lines
37-41): the body fields plus the action signature and the attestation. -/
structure UntrustedData extends FrameActionBody where
  signature : Sig
  signedPublicKeyBundle : SignedPublicKeyBundle
deriving DecidableEq, Repr

/-- The `trustedData` member of `EthereumFrameRequest` (source lines 42-45). -/
structure TrustedData where
  messageBytes : HexString
deriving DecidableEq, Repr

/-- Type `EthereumFrameRequest` (source lines 35-46). -/
structure EthereumFrameRequest where
  clientProtocol : String
  untrustedData : UntrustedData
  trustedData : TrustedData
deriving DecidableEq, Repr

/-- A wallet client, reduced to what the code reads from it: the optionally
bound account address.  Its `signTypedData` capability is passed separately
as a `sign` function (the external signing primitive bound to the account's
identity). -/
structure WalletClient where
  account : Option HexString
deriving DecidableEq, Repr

/-- The error message of the `Error` thrown by the signing operations when
the wallet client has no account (source lines 187, 219, 243). -/
def noAccountMsg : String := "Wallet client does not have an account"

/-- The message `verifyPublicKeyBundle` submits (source lines 79-83): note it
contains a third entry `wallet_address` that is not a field of the
`PublicKeyBundle` schema. -/
def bundleVerifyMessage (spkb : SignedPublicKeyBundle) :
    List (String × MsgVal) :=
  [("timestamp", .num spkb.public_key_bundle.timestamp),
   ("wallet_address", .str spkb.wallet_address),
   ("proxy_key_bytes", .str spkb.public_key_bundle.proxy_key_bytes)]

/-- The full `VerifyTypedDataParameters` built by `verifyPublicKeyBundle`
(source lines 75-86). -/
def bundleVerifyTyped (spkb : SignedPublicKeyBundle) :
    VerifyTypedDataParameters :=
  { primaryType := "PublicKeyBundle"
    domain := domain
    types := EIP712TypesV1
    message := bundleVerifyMessage spkb
    address := spkb.wallet_address
    signature := spkb.signature }

/-- Function `verifyPublicKeyBundle` (source lines 72-94).  The function always
constructs its own default public client (source lines 88-91); that client is
the `defaultClient` parameter. -/
def verifyPublicKeyBundle (defaultClient : PublicClient)
    (spkb : SignedPublicKeyBundle) : Except String Bool :=
  defaultClient (bundleVerifyTyped spkb)

/-- The message `getEthereumFrameMessage` rebuilds for the action-signature
check (source lines 140-149): `unix_timestamp` is the JS `number`
`unixTimestamp`, and absent optional fields are replaced by sentinels. -/
def frameVerifyMessage (b : FrameActionBody) : List (String × MsgVal) :=
  [("frame_url", .str b.url),
   ("button_index", .num b.buttonIndex),
   ("unix_timestamp", .num b.unixTimestamp),
   ("input_text", .str (b.inputText.getD "")),
   ("state", .str (b.state.getD "")),
   ("transaction_id", .str (b.transactionId.getD zeroHash)),
   ("address", .str (b.address.getD zeroAddress))]

/-- The full `VerifyTypedDataParameters` built by `getEthereumFrameMessage`
(source lines 136-153): the claimed signer is the attestation's proxy key. -/
def frameVerifyTyped (u : UntrustedData) : VerifyTypedDataParameters :=
  { primaryType := "FrameActionBody"
    domain := domain
    types := EIP712TypesV1
    message := frameVerifyMessage u.toFrameActionBody
    address := u.signedPublicKeyBundle.public_key_bundle.proxy_key_bytes
    signature := u.signature }

/-- The object returned by `getEthereumFrameMessage` (source lines 169-179).
Because the code spreads `...untrustedData`, the runtime object also carries
the `signature` and `signedPublicKeyBundle` members of `untrustedData`, even
though the declared TypeScript return type hides them. -/
structure VerifiedFrameActionResult where
  url : String
  unixTimestamp : Int
  buttonIndex : Int
  inputText : Option String
  state : Option String
  transactionId : Option HexString
  address : Option HexString
  signature : Sig
  signedPublicKeyBundle : SignedPublicKeyBundle
  isValid : Bool
  requesterWalletAddress : HexString
deriving DecidableEq, Repr

/-- Function `getEthereumFrameMessage` (source lines 126-180).  `defaultClient`
models the client `createPublicClient({transport: http(), chain: mainnet})`
would produce (source lines 155-160, and the identically configured one
inside `verifyPublicKeyBundle`); `publicClient` is the optional caller-
supplied client.  The two verification calls run sequentially and a thrown
collaborator error aborts the whole operation. -/
def getEthereumFrameMessage (defaultClient : PublicClient)
    (body : EthereumFrameRequest) (publicClient : Option PublicClient) :
    Except String VerifiedFrameActionResult :=
  let u := body.untrustedData
  let c := publicClient.getD defaultClient
  match c (frameVerifyTyped u) with
  | .error e => .error e
  | .ok isFrameDataValid =>
  match verifyPublicKeyBundle defaultClient u.signedPublicKeyBundle with
  | .error e => .error e
  | .ok isSignerValid =>
  let isValid := isFrameDataValid && isSignerValid
  .ok {
      url := u.url
      unixTimestamp := u.unixTimestamp
      buttonIndex := u.buttonIndex
      inputText := u.inputText
      state := u.state
      transactionId :=
        if u.transactionId == some zeroHash then none else u.transactionId
      address :=
        if u.address == some zeroAddress then none else u.address
      signature := u.signature
      signedPublicKeyBundle := u.signedPublicKeyBundle
      isValid := isValid
      requesterWalletAddress := u.signedPublicKeyBundle.wallet_address }

/-- The message `signPublicKeyBundle` signs (source lines 195-198): exactly
the two schema fields. -/
def bundleSignMessage (pkb : PublicKeyBundle) : List (String × MsgVal) :=
  [("timestamp", .num pkb.timestamp),
   ("proxy_key_bytes", .str pkb.proxy_key_bytes)]

/-- The `signTypedData` arguments built by `signPublicKeyBundle` (source
lines 191-199). -/
def bundleSignParams (pkb : PublicKeyBundle) : SignTypedDataParams :=
  { primaryType := "PublicKeyBundle"
    domain := domain
    types := EIP712TypesV1
    message := bundleSignMessage pkb }

/-- Function `signPublicKeyBundle` (source lines 182-208).  `sign` is the external
signing primitive bound to the wallet's identity (the wallet client's
`signTypedData`). -/
def signPublicKeyBundle (sign : HexString → SignTypedDataParams → Sig)
    (publicKeyBundle : PublicKeyBundle) (walletClient : WalletClient) :
    Except String SignedPublicKeyBundle :=
  match walletClient.account with
  | none => .error noAccountMsg
  | some a =>
      .ok
        { public_key_bundle := publicKeyBundle
          wallet_address := a
          signature := sign a (bundleSignParams publicKeyBundle) }

/-- Function `createSignedPublicKeyBundle` (source lines 210-236).  `nowMillis`
models `Date.now()`, the current unix time in milliseconds;
`privateKeyHex` models the fresh key from `generatePrivateKey()` and
`privateKeyToAccount` the viem derivation of its account address. -/
def createSignedPublicKeyBundle (sign : HexString → SignTypedDataParams → Sig)
    (nowMillis : Int) (privateKeyHex : HexString)
    (privateKeyToAccount : HexString → HexString)
    (walletClient : WalletClient) :
    Except String (SignedPublicKeyBundle × HexString) :=
  match walletClient.account with
  | none => .error noAccountMsg
  | some _ =>
      let signerAddress := privateKeyToAccount privateKeyHex
      let publicKeyBundle : PublicKeyBundle :=
        { timestamp := nowMillis, proxy_key_bytes := signerAddress }
      (signPublicKeyBundle sign publicKeyBundle walletClient).map
        (fun spkb => (spkb, privateKeyHex))

/-- The message `signFrameActionBody` signs (source lines 251-259):
`unix_timestamp` is `BigInt(body.unixTimestamp)`, and absent optional fields
are replaced by sentinels. -/
def frameSignMessage (b : FrameActionBody) : List (String × MsgVal) :=
  [("frame_url", .str b.url),
   ("button_index", .num b.buttonIndex),
   ("unix_timestamp", .big b.unixTimestamp),
   ("input_text", .str (b.inputText.getD "")),
   ("state", .str (b.state.getD "")),
   ("transaction_id", .str (b.transactionId.getD zeroHash)),
   ("address", .str (b.address.getD zeroAddress))]

/-- The `signTypedData` arguments built by `signFrameActionBody` (source
lines 247-260). -/
def frameSignParams (b : FrameActionBody) : SignTypedDataParams :=
  { primaryType := "FrameActionBody"
    domain := domain
    types := EIP712TypesV1
    message := frameSignMessage b }

/-- Function `signFrameActionBody` (source lines 238-263). -/
def signFrameActionBody (sign : HexString → SignTypedDataParams → Sig)
    (body : FrameActionBody) (proxyWalletClient : WalletClient) :
    Except String Sig :=
  match proxyWalletClient.account with
  | none => .error noAccountMsg
  | some a => .ok (sign a (frameSignParams body))

/-- Function `createEthereumFrameRequest` (source lines 265-283). -/
def createEthereumFrameRequest (sign : HexString → SignTypedDataParams → Sig)
    (body : FrameActionBody) (proxyWalletClient : WalletClient)
    (signedPublicKeyBundle : SignedPublicKeyBundle) :
    Except String EthereumFrameRequest :=
  (signFrameActionBody sign body proxyWalletClient).map
    (fun signature =>
      { clientProtocol := "eth@v1"
        untrustedData :=
          { toFrameActionBody := body
            signature := signature
            signedPublicKeyBundle := signedPublicKeyBundle }
        trustedData := { messageBytes := "0x" } })

/-- A JavaScript runtime value, as far as `isEthereumFrameActionPayload`
can observe one: `null`, `undefined`, a boolean, a number, a string, or a
plain object (an ordered list of distinctly-named fields). -/
inductive JsVal where
  | vNull
  | vUndefined
  | vBool (b : Bool)
  | vNum (n : Int)
  | vStr (s : String)
  | vObj (fields : List (String × JsVal))

/-- JS `typeof` on a `JsVal`; note `typeof null === "object"`. -/
def jsTypeof : JsVal → String
  | .vNull => "object"
  | .vUndefined => "undefined"
  | .vBool _ => "boolean"
  | .vNum _ => "number"
  | .vStr _ => "string"
  | .vObj _ => "object"

/-- JS `v === null`. -/
def jsIsNull : JsVal → Bool
  | .vNull => true
  | _ => false

/-- JS `v === "s"` for a string literal `s` (strict equality). -/
def jsStrictEqStr (v : JsVal) (s : String) : Bool :=
  match v with
  | .vStr t => t == s
  | _ => false

/-- JS `"k" in obj` on an object's field list. -/
def hasKey (fields : List (String × JsVal)) (k : String) : Bool :=
  fields.any (fun p => p.1 == k)

/-- JS property read `obj.k` on an object's field list (`undefined` when the
key is absent). -/
def getKey (fields : List (String × JsVal)) (k : String) : JsVal :=
  ((fields.find? (fun p => p.1 == k)).map (fun p => p.2)).getD .vUndefined

/-- Function `isEthereumFrameActionPayload` (source lines 96-124), transcribed check
for check: the `typeof body`/null guard, the three `in`-checks, the strict
comparison of `clientProtocol` with the literal string, then the final
conjunction of `typeof` and null checks. -/
def isEthereumFrameActionPayload (body : JsVal) : Bool :=
  if jsTypeof body != "object" || jsIsNull body then false
  else
    match body with
    | .vObj fields =>
        if !(hasKey fields "clientProtocol") ||
            !(hasKey fields "untrustedData") ||
            !(hasKey fields "trustedData") then false
        else
          let clientProtocol := getKey fields "clientProtocol"
          let untrustedData := getKey fields "untrustedData"
          let trustedData := getKey fields "trustedData"
          if !(jsStrictEqStr clientProtocol "eth@v1") then false
          else
            jsTypeof clientProtocol == "string" &&
            (jsTypeof untrustedData == "object" && !(jsIsNull untrustedData)) &&
            (jsTypeof trustedData == "object" && !(jsIsNull trustedData))
    | _ => false

/-- Whether `v` is a non-null object. -/
def isNonNullObject : JsVal → Bool
  | .vObj _ => true
  | _ => false

/-- The claim's characterisation of well-formedness, written from the spec's
words: a non-null object carrying the three keys, whose `clientProtocol` is
exactly the string eth@v1 and whose `untrustedData` and `trustedData` are
non-null objects. -/
def wellFormedSpecCheck (body : JsVal) : Bool :=
  match body with
  | .vObj fields =>
      hasKey fields "clientProtocol" &&
      hasKey fields "untrustedData" &&
      hasKey fields "trustedData" &&
      jsStrictEqStr (getKey fields "clientProtocol") "eth@v1" &&
      isNonNullObject (getKey fields "untrustedData") &&
      isNonNullObject (getKey fields "trustedData")
  | _ => false

/-- The `VerifiedFrameAction` shape as the spec describes it: only the
original `FrameActionBody` fields plus `isValid` and
`requesterWalletAddress`. -/
structure SpecVerifiedFrameAction where
  url : String
  unixTimestamp : Int
  buttonIndex : Int
  inputText : Option String
  state : Option String
  transactionId : Option HexString
  address : Option HexString
  isValid : Bool
  requesterWalletAddress : HexString
deriving DecidableEq, Repr

/-- Projection of the code's result onto the fields the spec says it
contains. -/
def claimedFields (r : VerifiedFrameActionResult) : SpecVerifiedFrameAction :=
  { url := r.url
    unixTimestamp := r.unixTimestamp
    buttonIndex := r.buttonIndex
    inputText := r.inputText
    state := r.state
    transactionId := r.transactionId
    address := r.address
    isValid := r.isValid
    requesterWalletAddress := r.requesterWalletAddress }

deriving instance DecidableEq for Except

/-- A collaborator that answers every verification query with `true`. -/
def okTrueClient : PublicClient := fun _ => .ok true

/-- A collaborator that answers every verification query with `true`,
written differently (used to instantiate extensionality statements). -/
def okTrueClientB : PublicClient := fun _ => .ok !false

/-- A collaborator that answers every verification query with `false`. -/
def okFalseClient : PublicClient := fun _ => .ok false

/-- A collaborator that answers every verification query with `false`,
written differently. -/
def okFalseClientB : PublicClient := fun _ => .ok !true

/-- A collaborator whose every call fails with the given error. -/
def errClient (msg : String) : PublicClient := fun _ => .error msg

/-- A placeholder signature used by concrete test payloads. -/
def sampleSig : Sig :=
  ("0xsig1", { domain := [], primaryType := "X", fields := none })

/-- A second, distinct placeholder signature. -/
def sampleSigB : Sig :=
  ("0xsig2", { domain := [], primaryType := "X", fields := none })

/-- A concrete attestation used by concrete test payloads. -/
def sampleBundle : SignedPublicKeyBundle :=
  { public_key_bundle := { timestamp := 7, proxy_key_bytes := "0xproxy" }
    wallet_address := "0xwallet"
    signature := sampleSig }

/-- A concrete action body (the spec's §8 scenario). -/
def sampleBody : FrameActionBody :=
  { url := "https://x", unixTimestamp := 1000, buttonIndex := 2 }

/-- Concrete `untrustedData` wrapping `sampleBody`. -/
def sampleUntrusted : UntrustedData :=
  { toFrameActionBody := sampleBody
    signature := sampleSig
    signedPublicKeyBundle := sampleBundle }

/-- A concrete inbound payload. -/
def sampleRequest : EthereumFrameRequest :=
  { clientProtocol := "eth@v1"
    untrustedData := sampleUntrusted
    trustedData := { messageBytes := "0x" } }

/-- The same payload with only the action signature changed. -/
def sampleRequestB : EthereumFrameRequest :=
  { clientProtocol := "eth@v1"
    untrustedData :=
      { toFrameActionBody := sampleBody
        signature := sampleSigB
        signedPublicKeyBundle := sampleBundle }
    trustedData := { messageBytes := "0x" } }

/-- The schema-directed encoding of the action message is the same on the
signing path (`BigInt` timestamp) and on the verification path (`number`
timestamp): the schema looks both up as `uint64`. -/
lemma frame_encodeFields_sign_eq_verify (b : FrameActionBody) :
    encodeFields frameActionBodySchema (frameSignMessage b) =
      encodeFields frameActionBodySchema (frameVerifyMessage b) := rfl

/-- The schema-directed encoding of the bundle message submitted by
`verifyPublicKeyBundle` ignores its extra `wallet_address` entry and equals
the encoding of the message `signPublicKeyBundle` signs. -/
lemma bundle_encodeFields_verify_eq_sign (spkb : SignedPublicKeyBundle) :
    encodeFields publicKeyBundleSchema (bundleVerifyMessage spkb) =
      encodeFields publicKeyBundleSchema
        (bundleSignMessage spkb.public_key_bundle) := rfl

lemma frame_encodeTypedData_eq (u : UntrustedData) :
    encodeTypedData (frameVerifyTyped u).toSignTypedDataParams =
      encodeTypedData (frameSignParams u.toFrameActionBody) := rfl

lemma bundle_encodeTypedData_eq (spkb : SignedPublicKeyBundle) :
    encodeTypedData (bundleVerifyTyped spkb).toSignTypedDataParams =
      encodeTypedData (bundleSignParams spkb.public_key_bundle) := rfl

lemma encode_frame_verify (b : FrameActionBody) :
    encodeTypedData
        { primaryType := "FrameActionBody", domain := domain,
          types := EIP712TypesV1, message := frameVerifyMessage b } =
      encodeTypedData
        { primaryType := "FrameActionBody", domain := domain,
          types := EIP712TypesV1, message := frameSignMessage b } := rfl

lemma encode_bundle_verify (spkb : SignedPublicKeyBundle) :
    encodeTypedData
        { primaryType := "PublicKeyBundle", domain := domain,
          types := EIP712TypesV1, message := bundleVerifyMessage spkb } =
      encodeTypedData
        { primaryType := "PublicKeyBundle", domain := domain,
          types := EIP712TypesV1,
          message := bundleSignMessage spkb.public_key_bundle } := rfl

/-- C1: for every wallet signer bound to an address and every
`FrameActionBody`, the end-to-end round trip — `createSignedPublicKeyBundle`
with the wallet signer, then `createEthereumFrameRequest` with the body and
the proxy key's signer and the resulting attestation, then
`getEthereumFrameMessage` on the resulting payload — yields `isValid = true`
and `requesterWalletAddress` equal to the wallet signer's address, assuming
the external crypto collaborator (`idealSign`/`idealClient`) verifies
exactly the signatures it produced. -/
theorem c1_sign_then_verify_round_trip (walletAddr : HexString)
    (nowMillis : Int) (privateKeyHex : HexString)
    (privateKeyToAccount : HexString → HexString) (body : FrameActionBody) :
    (((createSignedPublicKeyBundle idealSign nowMillis privateKeyHex
          privateKeyToAccount ⟨some walletAddr⟩).bind
        (fun r =>
          (createEthereumFrameRequest idealSign body
              ⟨some (privateKeyToAccount r.2)⟩ r.1).bind
            (fun req => getEthereumFrameMessage idealClient req none))).map
      (fun res => (res.isValid, res.requesterWalletAddress))) =
      .ok (true, walletAddr) := by
  simp [createSignedPublicKeyBundle, signPublicKeyBundle,
    createEthereumFrameRequest, signFrameActionBody, getEthereumFrameMessage,
    verifyPublicKeyBundle, idealClient, idealSign, frameVerifyTyped,
    bundleVerifyTyped, frameSignParams, bundleSignParams, Except.bind,
    Except.map, encode_frame_verify, encode_bundle_verify, beq_self_eq_true]

/-- C2: for every payload, `getEthereumFrameMessage` returns
`isValid = true` exactly when both the action-signature check and the
delegation check (`verifyPublicKeyBundle`) return `true`: the returned
`isValid` is the conjunction of the two collaborator answers. -/
theorem c2_isValid_is_conjunction_of_checks (defaultClient : PublicClient)
    (publicClient : Option PublicClient) (body : EthereumFrameRequest)
    (r₁ r₂ : Bool)
    (h₁ : (publicClient.getD defaultClient)
        (frameVerifyTyped body.untrustedData) = .ok r₁)
    (h₂ : defaultClient
        (bundleVerifyTyped body.untrustedData.signedPublicKeyBundle) =
          .ok r₂) :
    ∃ res, getEthereumFrameMessage defaultClient body publicClient =
        .ok res ∧
      res.isValid = (r₁ && r₂) := by
  simp only [getEthereumFrameMessage, verifyPublicKeyBundle, h₁, h₂]
  exact ⟨_, rfl, rfl⟩

/-- C2 witness: with a supplied client answering `true` and a default
client answering `false` on the delegation check, `isValid` is
`true && false`. -/
theorem c2_witness :
    ∃ res, getEthereumFrameMessage okFalseClient sampleRequest
        (some okTrueClient) = .ok res ∧
      res.isValid = (true && false) :=
  c2_isValid_is_conjunction_of_checks okFalseClient (some okTrueClient)
    sampleRequest true false rfl rfl

/-- C3 counterexample: on the concrete body `sampleBody`, the message built
by the signing path differs from the message rebuilt by the verification
path — the former carries `unix_timestamp` as a `BigInt`, the latter as a
plain JS `number`. -/
theorem c3_counterexample :
    (frameSignParams sampleBody).message ≠
      (frameVerifyTyped sampleUntrusted).message := by decide

/-- C3 (amended): the message built by `signFrameActionBody` and the one
rebuilt by `getEthereumFrameMessage` have the same field order, the same
domain, and the same sentinel substitutions; they differ only in the JS
representation of `unix_timestamp` (signing uses `BigInt(unixTimestamp)`,
verification the plain number), whose numeric value is the same, so their
schema-directed EIP-712 encodings coincide. -/
theorem c3_canonical_messages_agree_up_to_bigint (u : UntrustedData) :
    (frameSignParams u.toFrameActionBody).message.map Prod.fst =
        (frameVerifyTyped u).message.map Prod.fst ∧
      (frameSignParams u.toFrameActionBody).domain =
        (frameVerifyTyped u).domain ∧
      ((frameSignParams u.toFrameActionBody).message.filter
          (fun p => p.1 != "unix_timestamp") =
        (frameVerifyTyped u).message.filter
          (fun p => p.1 != "unix_timestamp")) ∧
      lookupMsg (frameSignParams u.toFrameActionBody).message
          "unix_timestamp" = some (.big u.unixTimestamp) ∧
      lookupMsg (frameVerifyTyped u).message "unix_timestamp" =
        some (.num u.unixTimestamp) ∧
      encodeTypedData (frameVerifyTyped u).toSignTypedDataParams =
        encodeTypedData (frameSignParams u.toFrameActionBody) :=
  ⟨rfl, rfl, rfl, rfl, rfl, frame_encodeTypedData_eq u⟩

/-- C4 counterexample: on the concrete attestation `sampleBundle`, the
message `verifyPublicKeyBundle` submits is not the message
`signPublicKeyBundle` signs — it carries an extra `wallet_address` entry. -/
theorem c4_counterexample :
    (bundleVerifyTyped sampleBundle).message ≠
      (bundleSignParams sampleBundle.public_key_bundle).message := by decide

/-- C4 (amended): the message `verifyPublicKeyBundle` submits contains the
schema fields `timestamp` and `proxy_key_bytes` taken from the attestation's
bundle plus an extra `wallet_address` entry that is not part of the
`PublicKeyBundle` schema; because EIP-712 encoding is schema-directed, the
submitted message encodes exactly as the message `signPublicKeyBundle`
signs, and the claimed signer address it checks against is the
attestation's `wallet_address`. -/
theorem c4_bundle_verify_message_vs_signed (spkb : SignedPublicKeyBundle) :
    lookupMsg (bundleVerifyTyped spkb).message "timestamp" =
        some (.num spkb.public_key_bundle.timestamp) ∧
      lookupMsg (bundleVerifyTyped spkb).message "proxy_key_bytes" =
        some (.str spkb.public_key_bundle.proxy_key_bytes) ∧
      lookupMsg (bundleVerifyTyped spkb).message "wallet_address" =
        some (.str spkb.wallet_address) ∧
      (bundleVerifyTyped spkb).message.map Prod.fst ≠
        (bundleSignParams spkb.public_key_bundle).message.map Prod.fst ∧
      encodeTypedData (bundleVerifyTyped spkb).toSignTypedDataParams =
        encodeTypedData (bundleSignParams spkb.public_key_bundle) ∧
      (bundleVerifyTyped spkb).address = spkb.wallet_address ∧
      (bundleVerifyTyped spkb).signature = spkb.signature :=
  ⟨rfl, rfl, rfl,
    (by decide :
      (["timestamp", "wallet_address", "proxy_key_bytes"] : List String) ≠
        ["timestamp", "proxy_key_bytes"]),
    bundle_encodeTypedData_eq spkb, rfl, rfl⟩

/-- C5 counterexample: two payloads that agree on every field the claim says
the result consists of (body fields, `isValid`, `requesterWalletAddress`)
but differ in `untrustedData.signature` produce different results — so the
returned object carries fields beyond the claimed ones (the spread of
`untrustedData` copies `signature` and `signedPublicKeyBundle` into it). -/
theorem c5_counterexample :
    (getEthereumFrameMessage okTrueClient sampleRequest none).map
        claimedFields =
      (getEthereumFrameMessage okTrueClient sampleRequestB none).map
        claimedFields ∧
    getEthereumFrameMessage okTrueClient sampleRequest none ≠
      getEthereumFrameMessage okTrueClient sampleRequestB none :=
  ⟨rfl, by decide⟩

/-- C5 (amended): the result of `getEthereumFrameMessage` contains the
original `FrameActionBody` fields — with `transactionId` mapped to
`undefined` when it equals the all-zero hash and `address` mapped to
`undefined` when it equals the all-zero address, never the zero sentinel —
plus `isValid`, `requesterWalletAddress` set to the attestation's wallet
address, and additionally the `signature` and `signedPublicKeyBundle`
members carried over from `untrustedData` by the object spread. -/
theorem c5_result_carries_untrusted_fields (defaultClient : PublicClient)
    (publicClient : Option PublicClient) (body : EthereumFrameRequest)
    (res : VerifiedFrameActionResult)
    (h : getEthereumFrameMessage defaultClient body publicClient = .ok res) :
    res.url = body.untrustedData.url ∧
    res.unixTimestamp = body.untrustedData.unixTimestamp ∧
    res.buttonIndex = body.untrustedData.buttonIndex ∧
    res.inputText = body.untrustedData.inputText ∧
    res.state = body.untrustedData.state ∧
    res.transactionId = (if body.untrustedData.transactionId == some zeroHash
      then none else body.untrustedData.transactionId) ∧
    res.address = (if body.untrustedData.address == some zeroAddress
      then none else body.untrustedData.address) ∧
    res.transactionId ≠ some zeroHash ∧
    res.address ≠ some zeroAddress ∧
    res.signature = body.untrustedData.signature ∧
    res.signedPublicKeyBundle = body.untrustedData.signedPublicKeyBundle ∧
    res.requesterWalletAddress =
      body.untrustedData.signedPublicKeyBundle.wallet_address := by
  simp only [getEthereumFrameMessage] at h
  split at h
  · exact absurd h (by simp)
  split at h
  · exact absurd h (by simp)
  injection h with h
  subst h
  refine ⟨rfl, rfl, rfl, rfl, rfl, rfl, rfl, ?_, ?_, rfl, rfl, rfl⟩
  · by_cases htx : body.untrustedData.transactionId == some zeroHash
    · simp [htx]
    · simp only [htx, Bool.false_eq_true, if_false]
      simpa using htx
  · by_cases had : body.untrustedData.address == some zeroAddress
    · simp [had]
    · simp only [had, Bool.false_eq_true, if_false]
      simpa using had

/-- C5 witness: on a concrete payload the result's `url` is the body's. -/
theorem c5_witness :
    ∃ res, getEthereumFrameMessage okTrueClient sampleRequest none =
        .ok res ∧
      res.url = sampleRequest.untrustedData.url :=
  ⟨_, rfl,
    (c5_result_carries_untrusted_fields okTrueClient none sampleRequest
      _ rfl).1⟩

/-- C6 counterexample: with a supplied client that answers `true` to every
query, the outcome still depends on the default client — because the
delegation check inside `verifyPublicKeyBundle` always constructs and uses
its own default client, never the supplied one.  If every verification call
used the supplied client, both results below would be `.ok true`. -/
theorem c6_counterexample :
    (getEthereumFrameMessage okTrueClient sampleRequest
        (some okTrueClient)).map (fun r => r.isValid) = .ok true ∧
    (getEthereumFrameMessage okFalseClient sampleRequest
        (some okTrueClient)).map (fun r => r.isValid) = .ok false :=
  ⟨rfl, rfl⟩

/-- C6 (amended): when a client is supplied to `getEthereumFrameMessage`,
only the action-signature check uses it; the delegation check performed via
`verifyPublicKeyBundle` always constructs and uses its own default client.
Formally, the result depends on the supplied client only through its answer
on the action typed data, and on the default client only through its answer
on the bundle typed data. -/
theorem c6_supplied_client_used_only_for_action (c₁ c₂ d₁ d₂ : PublicClient)
    (body : EthereumFrameRequest)
    (h₁ : c₁ (frameVerifyTyped body.untrustedData) =
      c₂ (frameVerifyTyped body.untrustedData))
    (h₂ : d₁ (bundleVerifyTyped body.untrustedData.signedPublicKeyBundle) =
      d₂ (bundleVerifyTyped body.untrustedData.signedPublicKeyBundle)) :
    getEthereumFrameMessage d₁ body (some c₁) =
      getEthereumFrameMessage d₂ body (some c₂) := by
  simp only [getEthereumFrameMessage, verifyPublicKeyBundle, Option.getD,
    h₁, h₂]

/-- C6 witness: two pointwise-equal supplied clients and two pointwise-equal
default clients give the same result on a concrete payload. -/
theorem c6_witness :
    getEthereumFrameMessage okFalseClient sampleRequest (some okTrueClient) =
      getEthereumFrameMessage okFalseClientB sampleRequest
        (some okTrueClientB) :=
  c6_supplied_client_used_only_for_action okTrueClient okTrueClientB
    okFalseClient okFalseClientB sampleRequest rfl rfl

lemma jsStrictEqStr_eq {v : JsVal} {s : String} :
    jsStrictEqStr v s = true ↔ v = .vStr s := by
  cases v <;> simp [jsStrictEqStr]

/-- C7: `isEthereumFrameActionPayload` returns `true` exactly on non-null
objects carrying the keys `clientProtocol`, `untrustedData` and
`trustedData`, with `clientProtocol` strictly equal to the string eth@v1 and
`untrustedData` and `trustedData` non-null objects; in particular it is
`false` on `null`, on a plain string, on an object missing `trustedData`,
and on an object whose protocol tag is eth@v2. -/
theorem c7_isEthereumFrameActionPayload_characterisation :
    (∀ v : JsVal,
      isEthereumFrameActionPayload v = wellFormedSpecCheck v) ∧
    isEthereumFrameActionPayload .vNull = false ∧
    isEthereumFrameActionPayload (.vStr "a plain string") = false ∧
    isEthereumFrameActionPayload (.vObj
      [("clientProtocol", .vStr "eth@v1"),
       ("untrustedData", .vObj [])]) = false ∧
    isEthereumFrameActionPayload (.vObj
      [("clientProtocol", .vStr "eth@v2"),
       ("untrustedData", .vObj []),
       ("trustedData", .vObj [])]) = false := by
  refine ⟨?_, rfl, rfl, rfl, rfl⟩
  intro v
  cases v <;> try rfl
  case vObj fields =>
    have step : isEthereumFrameActionPayload (.vObj fields) =
        (if !(hasKey fields "clientProtocol") ||
            !(hasKey fields "untrustedData") ||
            !(hasKey fields "trustedData") then false
         else if !(jsStrictEqStr (getKey fields "clientProtocol") "eth@v1")
           then false
         else
           jsTypeof (getKey fields "clientProtocol") == "string" &&
           (jsTypeof (getKey fields "untrustedData") == "object" &&
             !(jsIsNull (getKey fields "untrustedData"))) &&
           (jsTypeof (getKey fields "trustedData") == "object" &&
             !(jsIsNull (getKey fields "trustedData")))) := rfl
    rw [step]
    cases hA : hasKey fields "clientProtocol" <;>
      cases hB : hasKey fields "untrustedData" <;>
        cases hC : hasKey fields "trustedData" <;>
          simp [wellFormedSpecCheck, hA, hB, hC]
    cases hP : jsStrictEqStr (getKey fields "clientProtocol") "eth@v1"
    · simp [hP]
    · rw [jsStrictEqStr_eq] at hP
      rw [hP]
      cases hU : getKey fields "untrustedData" <;>
        cases hT : getKey fields "trustedData" <;>
          simp [jsTypeof, jsIsNull, isNonNullObject, jsStrictEqStr]

/-- C8: a collaborator failure propagates unchanged out of
`getEthereumFrameMessage` (whether it occurs in the action-signature check
or in the delegation check inside `verifyPublicKeyBundle`), and a
collaborator failure is never converted into an `isValid = false` result:
the operation returns `.ok` only when both collaborator calls returned. -/
theorem c8_collaborator_errors_propagate (defaultClient : PublicClient)
    (publicClient : Option PublicClient) (body : EthereumFrameRequest)
    (e : String) :
    (getEthereumFrameMessage defaultClient body publicClient = .error e ↔
      ((publicClient.getD defaultClient)
          (frameVerifyTyped body.untrustedData) = .error e ∨
        (∃ b, (publicClient.getD defaultClient)
            (frameVerifyTyped body.untrustedData) = .ok b ∧
          verifyPublicKeyBundle defaultClient
            body.untrustedData.signedPublicKeyBundle = .error e))) ∧
    (∀ res, getEthereumFrameMessage defaultClient body publicClient =
        .ok res →
      ∃ b₁ b₂, (publicClient.getD defaultClient)
          (frameVerifyTyped body.untrustedData) = .ok b₁ ∧
        verifyPublicKeyBundle defaultClient
          body.untrustedData.signedPublicKeyBundle = .ok b₂) := by
  simp only [getEthereumFrameMessage]
  cases hc : (publicClient.getD defaultClient)
      (frameVerifyTyped body.untrustedData) with
  | error eA =>
      refine ⟨by simp, ?_⟩
      intro res h
      simp at h
  | ok b =>
      cases hb : verifyPublicKeyBundle defaultClient
          body.untrustedData.signedPublicKeyBundle with
      | error eB =>
          refine ⟨by simp, ?_⟩
          intro res h
          simp at h
      | ok bB =>
          refine ⟨by simp, ?_⟩
          intro res h
          exact ⟨b, bB, rfl, rfl⟩

/-- C8 witness: a collaborator throwing on every call makes the whole
verification fail with that very error. -/
theorem c8_witness :
    getEthereumFrameMessage (errClient "boom") sampleRequest none =
      .error "boom" :=
  (c8_collaborator_errors_propagate (errClient "boom") none sampleRequest
      "boom").1.mpr (Or.inl rfl)

/-- C9: each signing operation — `signPublicKeyBundle`,
`signFrameActionBody` and `createSignedPublicKeyBundle` — throws the
no-account error when the wallet client has no bound account, and in that
case never invokes the external signer (the outcome is the same for any two
signing primitives); with a bound account no such error is raised. -/
theorem c9_no_account_error
    (sign signB : HexString → SignTypedDataParams → Sig)
    (pkb : PublicKeyBundle) (body : FrameActionBody) (nowMillis : Int)
    (privateKeyHex : HexString) (p2a : HexString → HexString)
    (a : HexString) :
    (signPublicKeyBundle sign pkb ⟨none⟩ = .error noAccountMsg ∧
      signPublicKeyBundle sign pkb ⟨none⟩ =
        signPublicKeyBundle signB pkb ⟨none⟩) ∧
    (signFrameActionBody sign body ⟨none⟩ = .error noAccountMsg ∧
      signFrameActionBody sign body ⟨none⟩ =
        signFrameActionBody signB body ⟨none⟩) ∧
    (createSignedPublicKeyBundle sign nowMillis privateKeyHex p2a ⟨none⟩ =
        .error noAccountMsg ∧
      createSignedPublicKeyBundle sign nowMillis privateKeyHex p2a ⟨none⟩ =
        createSignedPublicKeyBundle signB nowMillis privateKeyHex p2a
          ⟨none⟩) ∧
    (∃ r, signPublicKeyBundle sign pkb ⟨some a⟩ = .ok r) ∧
    (∃ r, signFrameActionBody sign body ⟨some a⟩ = .ok r) ∧
    (∃ r, createSignedPublicKeyBundle sign nowMillis privateKeyHex p2a
        ⟨some a⟩ = .ok r) :=
  ⟨⟨rfl, rfl⟩, ⟨rfl, rfl⟩, ⟨rfl, rfl⟩, ⟨_, rfl⟩, ⟨_, rfl⟩, ⟨_, rfl⟩⟩

/-- C10 counterexample: run at clock value 1700000000000 (milliseconds), the
bundle's timestamp is 1700000000000, not the unix time in seconds at that
instant (1700000000000 / 1000 = 1700000000). -/
theorem c10_counterexample :
    (createSignedPublicKeyBundle idealSign 1700000000000 "0xkey"
        (fun _ => "0xproxy") ⟨some "0xwallet"⟩).map
      (fun r => r.1.public_key_bundle.timestamp) = .ok 1700000000000 ∧
    (1700000000000 : Int) / 1000 = 1700000000 ∧
    (1700000000000 : Int) ≠ 1700000000 :=
  ⟨rfl, by norm_num, by norm_num⟩

/-- C10 (amended): the `ProxyKeyBundle` built by
`createSignedPublicKeyBundle` has its timestamp equal to `Date.now()` at
the moment of creation — the current unix time in milliseconds, not
seconds. -/
theorem c10_timestamp_is_now_millis
    (sign : HexString → SignTypedDataParams → Sig) (nowMillis : Int)
    (privateKeyHex : HexString) (p2a : HexString → HexString)
    (wc : WalletClient) (a : HexString) (h : wc.account = some a) :
    (createSignedPublicKeyBundle sign nowMillis privateKeyHex p2a wc).map
      (fun r => r.1.public_key_bundle.timestamp) = .ok nowMillis := by
  cases wc with
  | mk acc =>
      cases acc with
      | none => simp at h
      | some aA =>
          simp [createSignedPublicKeyBundle, signPublicKeyBundle, Except.map]

/-- C10 witness: at clock value 7 the created bundle's timestamp is 7. -/
theorem c10_witness :
    (createSignedPublicKeyBundle idealSign 7 "0xkey" (fun _ => "0xproxy")
        ⟨some "0xwallet"⟩).map
      (fun r => r.1.public_key_bundle.timestamp) = .ok 7 :=
  c10_timestamp_is_now_millis idealSign 7 "0xkey" (fun _ => "0xproxy")
    ⟨some "0xwallet"⟩ "0xwallet" rfl
